import Mathlib

/-!
Verification of the DigiStore storefront core (pricing, voucher, referral
commission, id normalization, local/remote sync, persistent-store round trip).

The definitions below are a shallow embedding of the TypeScript source:

* src/App.tsx        : checkout pricing (CustomerCart, lines 961-966),
                       referral commission (handleCheckout, lines 981-1000),
                       addToCart (lines 1311-1316), isValidUUID (127-131),
                       handleSync push (643-731), fetchData pull (1221-1301)
* src/services/dataService.ts : the Persistent Store get/set layer

JavaScript numbers are modelled as rationals (all inputs of interest are
integer smallest-currency-unit values, exactly representable); machine
strings as Lean strings; JS-falsy checks on numbers test equality with 0
and on optional strings test for absence or emptiness.
-/

/-- JS Math.round: rounds to the nearest integer, ties toward positive
infinity (round-half-up for non-negative arguments). Math.round x is
floor (x + 1/2) for every finite x. -/
def jsRound (q : ℚ) : ℤ := ⌊q + 1/2⌋

-- ---------------------------------------------------------------------------
-- Data model (src/types.ts and the Voucher/Affiliate shapes used in App.tsx)
-- ---------------------------------------------------------------------------

/-- Product (src/types.ts lines 1-11). Optional fields are Option; an absent
TS field is none. -/
structure Product where
  id : String
  name : String
  image : String
  category : String
  description : String
  price : ℚ
  discountPrice : Option ℚ
  fileUrl : Option String
  isPopular : Option Bool
  deriving DecidableEq, Repr

/-- Voucher type tag: 'FIXED' or 'PERCENT'. -/
inductive VoucherType where
  | FIXED
  | PERCENT
  deriving DecidableEq, Repr

/-- Voucher entity (used throughout src/App.tsx). -/
structure Voucher where
  id : String
  code : String
  vtype : VoucherType
  value : ℚ
  isActive : Bool
  deriving DecidableEq, Repr

/-- Affiliate entity (used throughout src/App.tsx). -/
structure Affiliate where
  id : String
  name : String
  code : String
  password : String
  commissionRate : ℚ
  totalEarnings : ℚ
  bankDetails : String
  isActive : Bool
  deriving DecidableEq, Repr

/-- Payment method kind: 'BANK' | 'E-WALLET' | 'QRIS' | 'TRIPAY'. -/
inductive PayKind where
  | BANK
  | EWALLET
  | QRIS
  | TRIPAY
  deriving DecidableEq, Repr

/-- PaymentMethod (src/types.ts lines 13-21). The running code also reads and
writes an isActive flag not present in the declared TS interface; it is
modelled as an optional field. -/
structure PaymentMethod where
  id : String
  ptype : PayKind
  name : String
  accountNumber : Option String
  accountName : Option String
  description : Option String
  logo : Option String
  isActive : Option Bool
  deriving DecidableEq, Repr

/-- StoreSettings (src/types.ts lines 23-35). -/
structure StoreSettings where
  storeName : String
  address : String
  whatsapp : String
  email : String
  description : String
  logoUrl : String
  supabaseUrl : Option String
  supabaseKey : Option String
  tripayApiKey : Option String
  tripayPrivateKey : Option String
  tripayMerchantCode : Option String
  deriving DecidableEq, Repr

/-- CartItem extends Product with a quantity (src/types.ts lines 37-39).
Quantities only ever arise as 1 or an increment of an existing quantity. -/
structure CartItem extends Product where
  quantity : ℕ
  deriving DecidableEq, Repr

-- ---------------------------------------------------------------------------
-- Pricing / voucher engine (CustomerCart, src/App.tsx lines 961-966)
-- ---------------------------------------------------------------------------

/-- Effective unit price of a cart line: item.discountPrice || item.price
(src/App.tsx line 961). JS || falls back on every falsy value, so a present
discountPrice of 0 also falls back to price. -/
def effectiveUnitPrice (item : CartItem) : ℚ :=
  match item.discountPrice with
  | some d => if d = 0 then item.toProduct.price else d
  | none => item.toProduct.price

/-- subTotal = cart.reduce((sum, item) => sum + ((item.discountPrice ||
item.price) * item.quantity), 0) (src/App.tsx line 961). -/
def subTotal (cart : List CartItem) : ℚ :=
  cart.foldl (fun sum item => sum + effectiveUnitPrice item * (item.quantity : ℚ)) 0

/-- discountAmount (src/App.tsx lines 962-965): 0 without an applied voucher;
for a PERCENT voucher (subTotal * value) / 100 with no rounding; for a FIXED
voucher the raw value. -/
def discountAmount (appliedVoucher : Option Voucher) (sub : ℚ) : ℚ :=
  match appliedVoucher with
  | none => 0
  | some v =>
    match v.vtype with
    | VoucherType.PERCENT => sub * v.value / 100
    | VoucherType.FIXED => v.value

/-- total = Math.max(0, subTotal - discountAmount) (src/App.tsx line 966). -/
def checkoutTotal (cart : List CartItem) (appliedVoucher : Option Voucher) : ℚ :=
  max 0 (subTotal cart - discountAmount appliedVoucher (subTotal cart))

-- ---------------------------------------------------------------------------
-- Referral / commission engine (handleCheckout, src/App.tsx lines 981-1000)
-- ---------------------------------------------------------------------------

/-- Canonical form of a voucher/affiliate code per the spec glossary: the
uppercase, whitespace-trimmed form, modelled over the character list. -/
def canonicalCode (s : String) : String :=
  String.mk ((((s.toList.dropWhile Char.isWhitespace).reverse.dropWhile
    Char.isWhitespace).reverse).map Char.toUpper)

/-- The affiliate-commission step of handleCheckout (src/App.tsx lines
981-1000), returning the resulting affiliate collection (the argument of
updateAffiliates, or the unchanged input when nothing is credited) together
with the commission credited (0 on the no-op paths).

JS control flow mirrored: if (referralCode) is false for null and for the
empty string; affiliates.find(a => a.code === referralCode) is an exact
string match; the active check gates crediting; the update maps over the
full collection replacing records whose id equals the matched affiliate's
id. -/
def creditCommission (referralCode : Option String) (sub : ℚ)
    (affiliates : List Affiliate) : List Affiliate × ℤ :=
  match referralCode with
  | none => (affiliates, 0)
  | some r =>
    if r = "" then (affiliates, 0)
    else
      match affiliates.find? (fun a => a.code == r) with
      | none => (affiliates, 0)
      | some affiliate =>
        if affiliate.isActive then
          let commission := jsRound (sub * affiliate.commissionRate / 100)
          (affiliates.map (fun a =>
            if a.id == affiliate.id then
              { a with totalEarnings := a.totalEarnings + (commission : ℚ) }
            else a), commission)
        else (affiliates, 0)

-- ---------------------------------------------------------------------------
-- Cart mutation (addToCart, src/App.tsx lines 1311-1316)
-- ---------------------------------------------------------------------------

/-- addToCart: if an item with the product's id exists, increment quantity of
matching items; else append the product with quantity 1. -/
def addToCart (product : Product) (prev : List CartItem) : List CartItem :=
  match prev.find? (fun p => p.toProduct.id == product.id) with
  | some _ =>
    prev.map (fun p =>
      if p.toProduct.id == product.id then { p with quantity := p.quantity + 1 } else p)
  | none => prev ++ [{ toProduct := product, quantity := 1 }]

-- ---------------------------------------------------------------------------
-- Id validity and push-time normalization (src/App.tsx lines 119-131, 650-655)
-- ---------------------------------------------------------------------------

/-- Hexadecimal digit, either case (the regex uses the i flag). -/
def hexDigit (c : Char) : Bool :=
  c.isDigit || (Char.ofNat 97 ≤ c && c ≤ Char.ofNat 102)
    || (Char.ofNat 65 ≤ c && c ≤ Char.ofNat 70)

/-- Position check for the UUID regex /^[0-9a-f]{8}-[0-9a-f]{4}-[0-9a-f]{4}-
[0-9a-f]{4}-[0-9a-f]{12}$/i: hyphens at offsets 8, 13, 18, 23, hex digits
elsewhere. -/
def uuidPos (ic : ℕ × Char) : Bool :=
  if ic.1 = 8 || ic.1 = 13 || ic.1 = 18 || ic.1 = 23 then ic.2 = Char.ofNat 45
  else hexDigit ic.2

/-- isValidUUID (src/App.tsx lines 127-131): the whole string is a 36-character
hyphenated hexadecimal token. -/
def isValidUUID (uuid : String) : Bool :=
  uuid.toList.length = 36 && uuid.toList.enum.all uuidPos

/-- ensureUuid (src/App.tsx lines 650-655) on a product: records with an
already-valid id pass through unchanged, others get a freshly generated id. -/
def ensureUuidProduct (fresh : String) (p : Product) : Product :=
  if isValidUUID p.id then p else { p with id := fresh }

/-- ensureUuid on a voucher. -/
def ensureUuidVoucher (fresh : String) (v : Voucher) : Voucher :=
  if isValidUUID v.id then v else { v with id := fresh }

/-- ensureUuid on an affiliate. -/
def ensureUuidAffiliate (fresh : String) (a : Affiliate) : Affiliate :=
  if isValidUUID a.id then a else { a with id := fresh }

/-- ensureUuid on a payment method. -/
def ensureUuidPayment (fresh : String) (pm : PaymentMethod) : PaymentMethod :=
  if isValidUUID pm.id then pm else { pm with id := fresh }

/-- collection.map(ensureUuid) where generateUUID is modelled by a stream g of
fresh identifiers, one per position. -/
def normalizeList (ensure : String → α → α) (g : ℕ → String) :
    ℕ → List α → List α
  | _, [] => []
  | i, x :: xs => ensure (g i) x :: normalizeList ensure g (i + 1) xs

/-- In-memory application state: the five managed collections
(App component state, src/App.tsx lines 1192-1196). -/
structure AppSt where
  products : List Product
  vouchers : List Voucher
  affiliates : List Affiliate
  settings : StoreSettings
  paymentMethods : List PaymentMethod
  deriving DecidableEq, Repr

/-- The id normalization handleSync applies before building remote payloads
(fixedProducts/fixedVouchers/fixedAffs/fixedPayments written back via the
update setters); settings carry no id and are not normalized. -/
def normalizeState (g : ℕ → String) (s : AppSt) : AppSt :=
  { s with
    products := normalizeList ensureUuidProduct g 0 s.products
    vouchers := normalizeList ensureUuidVoucher g 0 s.vouchers
    affiliates := normalizeList ensureUuidAffiliate g 0 s.affiliates
    paymentMethods := normalizeList ensureUuidPayment g 0 s.paymentMethods }

-- ---------------------------------------------------------------------------
-- Manual push (handleSync, src/App.tsx lines 643-731)
-- ---------------------------------------------------------------------------

/-- The five remote tables, in the order handleSync pushes them. -/
inductive SyncTable where
  | products
  | vouchers
  | affiliates
  | settings
  | payments
  deriving DecidableEq, Repr

/-- The sequence of upserts a handleSync run attempts: products, vouchers,
affiliates each guarded by length > 0 (src/App.tsx lines 658, 671, 683),
the single settings row unconditionally (line 695), payment methods guarded
by length > 0 (line 712). -/
def pushPlan (s : AppSt) : List SyncTable :=
  (if s.products.isEmpty then [] else [SyncTable.products])
    ++ (if s.vouchers.isEmpty then [] else [SyncTable.vouchers])
    ++ (if s.affiliates.isEmpty then [] else [SyncTable.affiliates])
    ++ [SyncTable.settings]
    ++ (if s.paymentMethods.isEmpty then [] else [SyncTable.payments])

/-- Sequential execution of the planned upserts with the source's
throw-on-first-error control flow (if (error) throw error, caught by the
surrounding try/catch which surfaces e.message). resp is the remote store's
per-table upsert outcome for this run. Returns the tables whose upsert
completed successfully (they stay committed remotely) and the surfaced
failure reason, if any. -/
def runPush (resp : SyncTable → Except String Unit) :
    List SyncTable → List SyncTable × Option String
  | [] => ([], none)
  | t :: ts =>
    match resp t with
    | Except.ok _ =>
      let r := runPush resp ts
      (t :: r.1, r.2)
    | Except.error e => ([], some e)

/-- handleSync's upsert sequence (src/App.tsx lines 657-722): run the plan in
order, aborting at the first failed upsert. -/
def handleSync (resp : SyncTable → Except String Unit) (s : AppSt) :
    List SyncTable × Option String :=
  runPush resp (pushPlan s)

/-- True when an upsert outcome is a success. -/
def upsertOk (e : Except String Unit) : Bool :=
  match e with
  | Except.ok _ => true
  | Except.error _ => false

/-- The error message of a failed upsert outcome. -/
def upsertErr (e : Except String Unit) : Option String :=
  match e with
  | Except.ok _ => none
  | Except.error msg => some msg

-- ---------------------------------------------------------------------------
-- Initial pull (fetchData, src/App.tsx lines 1221-1301)
-- ---------------------------------------------------------------------------

/-- A remote products row (table products, SUPABASE_SCHEMA lines 15-26). -/
structure RProduct where
  id : String
  name : String
  category : String
  description : String
  price : ℚ
  discount_price : Option ℚ
  image : String
  file_url : Option String
  is_popular : Option Bool
  deriving DecidableEq, Repr

/-- A remote vouchers row. -/
structure RVoucher where
  id : String
  code : String
  vtype : VoucherType
  value : ℚ
  is_active : Bool
  deriving DecidableEq, Repr

/-- A remote affiliates row. -/
structure RAffiliate where
  id : String
  name : String
  code : String
  password : String
  commission_rate : ℚ
  total_earnings : ℚ
  bank_details : String
  is_active : Bool
  deriving DecidableEq, Repr

/-- The remote store_settings row (single fixed-id row; carries no supabase
credentials). -/
structure RSettings where
  store_name : String
  address : String
  whatsapp : String
  email : String
  description : String
  logo_url : String
  tripay_api_key : Option String
  tripay_private_key : Option String
  tripay_merchant_code : Option String
  deriving DecidableEq, Repr

/-- A remote payment_methods row. -/
structure RPayment where
  id : String
  ptype : PayKind
  name : String
  account_number : Option String
  account_name : Option String
  description : Option String
  logo : Option String
  is_active : Option Bool
  deriving DecidableEq, Repr

/-- The data a successful pull cycle receives from the five remote
collections. settings is none when no store_settings row exists (the source
ignores the single() error and skips the merge). -/
structure RemoteData where
  products : List RProduct
  vouchers : List RVoucher
  affiliates : List RAffiliate
  settings : Option RSettings
  payments : List RPayment
  deriving Repr

/-- Field-by-field mapping of a remote products row into the local shape
(src/App.tsx lines 1230-1234). discountPrice uses a JS truthiness test:
p.discount_price ? Number(p.discount_price) : undefined, so a remote 0
maps to an absent local discountPrice. -/
def mapRemoteProduct (p : RProduct) : Product :=
  { id := p.id, name := p.name, category := p.category,
    description := p.description, price := p.price,
    discountPrice :=
      match p.discount_price with
      | some d => if d = 0 then none else some d
      | none => none,
    image := p.image, fileUrl := p.file_url, isPopular := p.is_popular }

/-- Mapping of a remote vouchers row (src/App.tsx lines 1243-1245). -/
def mapRemoteVoucher (v : RVoucher) : Voucher :=
  { id := v.id, code := v.code, vtype := v.vtype, value := v.value,
    isActive := v.is_active }

/-- Mapping of a remote affiliates row (src/App.tsx lines 1253-1257). -/
def mapRemoteAffiliate (a : RAffiliate) : Affiliate :=
  { id := a.id, name := a.name, code := a.code, password := a.password,
    commissionRate := a.commission_rate, totalEarnings := a.total_earnings,
    bankDetails := a.bank_details, isActive := a.is_active }

/-- Mapping of a remote payment_methods row (src/App.tsx lines 1284-1287). -/
def mapRemotePayment (p : RPayment) : PaymentMethod :=
  { id := p.id, ptype := p.ptype, name := p.name,
    accountNumber := p.account_number, accountName := p.account_name,
    description := p.description, logo := p.logo, isActive := p.is_active }

/-- The settings merge on pull (src/App.tsx lines 1264-1276): spread the
current settings (preserving supabaseUrl and supabaseKey, which the remote
row does not carry) and overwrite every other field from the remote row. -/
def mergeSettings (cur : StoreSettings) (rs : RSettings) : StoreSettings :=
  { cur with
    storeName := rs.store_name, address := rs.address,
    whatsapp := rs.whatsapp, email := rs.email,
    description := rs.description, logoUrl := rs.logo_url,
    tripayApiKey := rs.tripay_api_key,
    tripayPrivateKey := rs.tripay_private_key,
    tripayMerchantCode := rs.tripay_merchant_code }

/-- Combined in-memory and persisted state visible to the pull cycle: each
set-state call in fetchData is paired with a DataService save of the same
value, so the pull writes the in-memory collections (mem) and the
Persistent Store mirror (disk). -/
structure SyncState where
  mem : AppSt
  disk : AppSt
  deriving Repr

/-- A successful fetchData cycle (src/App.tsx lines 1221-1301): products,
vouchers, affiliates are overwritten unconditionally (the remote result
array is always used, even when empty); the settings merge runs only when a
remote settings row exists; payment methods are overwritten only when the
remote collection is non-empty (the payData.length > 0 guard on line
1283). -/
def fetchData (r : RemoteData) (st : SyncState) : SyncState :=
  let mp := r.products.map mapRemoteProduct
  let mv := r.vouchers.map mapRemoteVoucher
  let ma := r.affiliates.map mapRemoteAffiliate
  let ns :=
    match r.settings with
    | some rs => mergeSettings st.mem.settings rs
    | none => st.mem.settings
  let np :=
    if r.payments.isEmpty then st.mem.paymentMethods
    else r.payments.map mapRemotePayment
  { mem :=
      { products := mp, vouchers := mv, affiliates := ma,
        settings := ns, paymentMethods := np },
    disk :=
      { products := mp, vouchers := mv, affiliates := ma,
        settings :=
          match r.settings with
          | some _ => ns
          | none => st.disk.settings,
        paymentMethods :=
          if r.payments.isEmpty then st.disk.paymentMethods
          else r.payments.map mapRemotePayment } }

-- ---------------------------------------------------------------------------
-- Persistent Store (src/services/dataService.ts)
-- ---------------------------------------------------------------------------

/-- JSON values, the image of JSON.stringify / JSON.parse. Objects are ordered
field lists; numbers are the rationals the app actually stores. -/
inductive Json where
  | jnull
  | jbool (b : Bool)
  | jnum (q : ℚ)
  | jstr (s : String)
  | jarr (elems : List Json)
  | jobj (fields : List (String × Json))

/-- localStorage modelled as an association list newest-first; setItem
prepends, getItem takes the newest binding. Values are stored in parsed
form: JSON.parse of JSON.stringify of a JSON-representable value is that
value, so the string leg of the trip is the identity on this model. -/
def JStore : Type := List (String × Json)

/-- localStorage.getItem. -/
def jget (store : JStore) (k : String) : Option Json :=
  (List.find? (fun kv => kv.1 == k) store).map (fun kv => kv.2)

/-- localStorage.setItem. -/
def jset (store : JStore) (k : String) (j : Json) : JStore :=
  (k, j) :: store

/-- An optional object field: JSON.stringify drops undefined-valued fields. -/
def optField (k : String) : Option Json → List (String × Json)
  | some j => [(k, j)]
  | none => []

/-- Object field lookup. -/
def jfield (fields : List (String × Json)) (k : String) : Option Json :=
  (List.find? (fun kv => kv.1 == k) fields).map (fun kv => kv.2)

/-- Read a JSON string. -/
def asStr : Json → Option String
  | Json.jstr s => some s
  | _ => none

/-- Read a JSON number. -/
def asNum : Json → Option ℚ
  | Json.jnum q => some q
  | _ => none

/-- Read a JSON boolean. -/
def asBool : Json → Option Bool
  | Json.jbool b => some b
  | _ => none

/-- JSON.stringify of a Product object (field order as constructed in the
source; optional fields dropped when undefined). -/
def encodeProduct (p : Product) : Json :=
  Json.jobj
    ([("id", Json.jstr p.id), ("name", Json.jstr p.name),
      ("image", Json.jstr p.image), ("category", Json.jstr p.category),
      ("description", Json.jstr p.description), ("price", Json.jnum p.price)]
      ++ optField "discountPrice" (p.discountPrice.map Json.jnum)
      ++ optField "fileUrl" (p.fileUrl.map Json.jstr)
      ++ optField "isPopular" (p.isPopular.map Json.jbool))

/-- Typed view of JSON.parse on a stored Product object. -/
def decodeProduct : Json → Option Product
  | Json.jobj fs =>
    match (jfield fs "id").bind asStr, (jfield fs "name").bind asStr,
        (jfield fs "image").bind asStr, (jfield fs "category").bind asStr,
        (jfield fs "description").bind asStr, (jfield fs "price").bind asNum with
    | some i, some n, some im, some c, some d, some pr =>
      some { id := i, name := n, image := im, category := c, description := d,
             price := pr,
             discountPrice := (jfield fs "discountPrice").bind asNum,
             fileUrl := (jfield fs "fileUrl").bind asStr,
             isPopular := (jfield fs "isPopular").bind asBool }
    | _, _, _, _, _, _ => none
  | _ => none

/-- Voucher type tag as stored remotely and in JSON. -/
def encodeVoucherType (t : VoucherType) : String :=
  match t with
  | VoucherType.FIXED => "FIXED"
  | VoucherType.PERCENT => "PERCENT"

/-- Parse a voucher type tag. -/
def decodeVoucherType (s : String) : Option VoucherType :=
  if s = "FIXED" then some VoucherType.FIXED
  else if s = "PERCENT" then some VoucherType.PERCENT
  else none

/-- JSON.stringify of a Voucher. -/
def encodeVoucher (v : Voucher) : Json :=
  Json.jobj
    [("id", Json.jstr v.id), ("code", Json.jstr v.code),
     ("type", Json.jstr (encodeVoucherType v.vtype)),
     ("value", Json.jnum v.value), ("isActive", Json.jbool v.isActive)]

/-- Typed view of JSON.parse on a stored Voucher object. -/
def decodeVoucher : Json → Option Voucher
  | Json.jobj fs =>
    match (jfield fs "id").bind asStr, (jfield fs "code").bind asStr,
        ((jfield fs "type").bind asStr).bind decodeVoucherType,
        (jfield fs "value").bind asNum, (jfield fs "isActive").bind asBool with
    | some i, some c, some t, some v, some a =>
      some { id := i, code := c, vtype := t, value := v, isActive := a }
    | _, _, _, _, _ => none
  | _ => none

/-- JSON.stringify of an Affiliate. -/
def encodeAffiliate (a : Affiliate) : Json :=
  Json.jobj
    [("id", Json.jstr a.id), ("name", Json.jstr a.name),
     ("code", Json.jstr a.code), ("password", Json.jstr a.password),
     ("commissionRate", Json.jnum a.commissionRate),
     ("totalEarnings", Json.jnum a.totalEarnings),
     ("bankDetails", Json.jstr a.bankDetails),
     ("isActive", Json.jbool a.isActive)]

/-- Typed view of JSON.parse on a stored Affiliate object. -/
def decodeAffiliate : Json → Option Affiliate
  | Json.jobj fs =>
    match (jfield fs "id").bind asStr, (jfield fs "name").bind asStr,
        (jfield fs "code").bind asStr, (jfield fs "password").bind asStr,
        (jfield fs "commissionRate").bind asNum,
        (jfield fs "totalEarnings").bind asNum,
        (jfield fs "bankDetails").bind asStr,
        (jfield fs "isActive").bind asBool with
    | some i, some n, some c, some p, some r, some e, some b, some act =>
      some { id := i, name := n, code := c, password := p, commissionRate := r,
             totalEarnings := e, bankDetails := b, isActive := act }
    | _, _, _, _, _, _, _, _ => none
  | _ => none

/-- Payment kind tag as it appears in JSON. -/
def encodePayKind (t : PayKind) : String :=
  match t with
  | PayKind.BANK => "BANK"
  | PayKind.EWALLET => "E-WALLET"
  | PayKind.QRIS => "QRIS"
  | PayKind.TRIPAY => "TRIPAY"

/-- Parse a payment kind tag. -/
def decodePayKind (s : String) : Option PayKind :=
  if s = "BANK" then some PayKind.BANK
  else if s = "E-WALLET" then some PayKind.EWALLET
  else if s = "QRIS" then some PayKind.QRIS
  else if s = "TRIPAY" then some PayKind.TRIPAY
  else none

/-- JSON.stringify of a PaymentMethod. -/
def encodePayment (p : PaymentMethod) : Json :=
  Json.jobj
    ([("id", Json.jstr p.id), ("type", Json.jstr (encodePayKind p.ptype)),
      ("name", Json.jstr p.name)]
      ++ optField "accountNumber" (p.accountNumber.map Json.jstr)
      ++ optField "accountName" (p.accountName.map Json.jstr)
      ++ optField "description" (p.description.map Json.jstr)
      ++ optField "logo" (p.logo.map Json.jstr)
      ++ optField "isActive" (p.isActive.map Json.jbool))

/-- Typed view of JSON.parse on a stored PaymentMethod object. -/
def decodePayment : Json → Option PaymentMethod
  | Json.jobj fs =>
    match (jfield fs "id").bind asStr,
        ((jfield fs "type").bind asStr).bind decodePayKind,
        (jfield fs "name").bind asStr with
    | some i, some t, some n =>
      some { id := i, ptype := t, name := n,
             accountNumber := (jfield fs "accountNumber").bind asStr,
             accountName := (jfield fs "accountName").bind asStr,
             description := (jfield fs "description").bind asStr,
             logo := (jfield fs "logo").bind asStr,
             isActive := (jfield fs "isActive").bind asBool }
    | _, _, _ => none
  | _ => none

/-- JSON.stringify of StoreSettings. -/
def encodeSettings (s : StoreSettings) : Json :=
  Json.jobj
    ([("storeName", Json.jstr s.storeName), ("address", Json.jstr s.address),
      ("whatsapp", Json.jstr s.whatsapp), ("email", Json.jstr s.email),
      ("description", Json.jstr s.description),
      ("logoUrl", Json.jstr s.logoUrl)]
      ++ optField "supabaseUrl" (s.supabaseUrl.map Json.jstr)
      ++ optField "supabaseKey" (s.supabaseKey.map Json.jstr)
      ++ optField "tripayApiKey" (s.tripayApiKey.map Json.jstr)
      ++ optField "tripayPrivateKey" (s.tripayPrivateKey.map Json.jstr)
      ++ optField "tripayMerchantCode" (s.tripayMerchantCode.map Json.jstr))

/-- Typed view of JSON.parse on stored StoreSettings. -/
def decodeSettings : Json → Option StoreSettings
  | Json.jobj fs =>
    match (jfield fs "storeName").bind asStr, (jfield fs "address").bind asStr,
        (jfield fs "whatsapp").bind asStr, (jfield fs "email").bind asStr,
        (jfield fs "description").bind asStr,
        (jfield fs "logoUrl").bind asStr with
    | some sn, some ad, some wa, some em, some de, some lo =>
      some { storeName := sn, address := ad, whatsapp := wa, email := em,
             description := de, logoUrl := lo,
             supabaseUrl := (jfield fs "supabaseUrl").bind asStr,
             supabaseKey := (jfield fs "supabaseKey").bind asStr,
             tripayApiKey := (jfield fs "tripayApiKey").bind asStr,
             tripayPrivateKey := (jfield fs "tripayPrivateKey").bind asStr,
             tripayMerchantCode := (jfield fs "tripayMerchantCode").bind asStr }
    | _, _, _, _, _, _ => none
  | _ => none

/-- Decode each element of a JSON array. -/
def decodeListWith (dec : Json → Option α) : List Json → Option (List α)
  | [] => some []
  | j :: js =>
    match dec j, decodeListWith dec js with
    | some a, some rest => some (a :: rest)
    | _, _ => none

/-- Decode a stored product collection. -/
def decodeProducts : Json → Option (List Product)
  | Json.jarr js => decodeListWith decodeProduct js
  | _ => none

/-- Decode a stored voucher collection. -/
def decodeVouchers : Json → Option (List Voucher)
  | Json.jarr js => decodeListWith decodeVoucher js
  | _ => none

/-- Decode a stored affiliate collection. -/
def decodeAffiliates : Json → Option (List Affiliate)
  | Json.jarr js => decodeListWith decodeAffiliate js
  | _ => none

/-- Decode a stored payment-method collection. -/
def decodePayments : Json → Option (List PaymentMethod)
  | Json.jarr js => decodeListWith decodePayment js
  | _ => none

/-- The build-time environment variables VITE_SUPABASE_URL and
VITE_SUPABASE_ANON_KEY read by dataService.ts; none models an undefined
variable. -/
structure EnvVars where
  url : Option String
  key : Option String
  deriving DecidableEq, Repr

/-- JS truthiness of an optional string: undefined and the empty string are
falsy. -/
def strFalsy (o : Option String) : Bool :=
  match o with
  | none => true
  | some s => s == ""

/-- x || two-quote fallback of dataService.ts lines 21-22. -/
def envOr (o : Option String) : String :=
  match o with
  | some s => s
  | none => ""

/-- initialSettings (dataService.ts lines 13-23), with the environment
variables injected into the credential fields. -/
def initialSettings (env : EnvVars) : StoreSettings :=
  { storeName := "DigiStore Pro", address := "Jl. Digital No. 1, Jakarta",
    whatsapp := "6281234567890", email := "admin@digistore.com",
    description := "Toko produk digital terpercaya dan terlengkap.",
    logoUrl := "https://picsum.photos/id/42/200/200",
    supabaseUrl := some (envOr env.url), supabaseKey := some (envOr env.key),
    tripayApiKey := none, tripayPrivateKey := none,
    tripayMerchantCode := none }

/-- initialPayments (dataService.ts lines 25-31). -/
def initialPayments : List PaymentMethod :=
  [{ id := "1", ptype := PayKind.BANK, name := "Bank BCA",
     accountNumber := some "1234567890", accountName := some "Admin Store",
     description := none,
     logo := some "https://upload.wikimedia.org/wikipedia/commons/5/5c/Bank_Central_Asia.svg",
     isActive := none },
   { id := "2", ptype := PayKind.BANK, name := "Bank Mandiri",
     accountNumber := some "0987654321", accountName := some "Admin Store",
     description := none,
     logo := some "https://upload.wikimedia.org/wikipedia/commons/a/ad/Bank_Mandiri_logo_2016.svg",
     isActive := none },
   { id := "3", ptype := PayKind.EWALLET, name := "DANA",
     accountNumber := some "081234567890", accountName := some "Admin Store",
     description := none,
     logo := some "https://upload.wikimedia.org/wikipedia/commons/7/72/Logo_dana_blue.svg",
     isActive := none },
   { id := "4", ptype := PayKind.QRIS, name := "QRIS Payment",
     accountNumber := some "N/A", accountName := some "DigiStore",
     description := some "Scan QR untuk membayar", logo := none,
     isActive := none },
   { id := "5", ptype := PayKind.TRIPAY, name := "Tripay Automatis",
     accountNumber := none, accountName := none,
     description := some "Metode pembayaran otomatis", logo := none,
     isActive := none }]

/-- initialProducts (dataService.ts lines 33-63). -/
def initialProducts : List Product :=
  [{ id := "550e8400-e29b-41d4-a716-446655440001", name := "Premium UI Kit",
     category := "Design", price := 150000, discountPrice := some 99000,
     image := "https://picsum.photos/id/1/400/400",
     description := "High quality UI Kit for mobile apps.",
     fileUrl := none, isPopular := some true },
   { id := "550e8400-e29b-41d4-a716-446655440002",
     name := "React Dashboard Template", category := "Code", price := 350000,
     discountPrice := some 299000,
     image := "https://picsum.photos/id/3/400/400",
     description := "Complete admin dashboard built with React and Tailwind.",
     fileUrl := none, isPopular := some false },
   { id := "550e8400-e29b-41d4-a716-446655440003",
     name := "E-book: Mastering React", category := "Education",
     price := 75000, discountPrice := none,
     image := "https://picsum.photos/id/24/400/400",
     description := "A comprehensive guide to modern React development.",
     fileUrl := none, isPopular := some true }]

/-- initialVouchers (dataService.ts lines 65-68). -/
def initialVouchers : List Voucher :=
  [{ id := "550e8400-e29b-41d4-a716-446655440004", code := "DISKON10",
     vtype := VoucherType.PERCENT, value := 10, isActive := true },
   { id := "550e8400-e29b-41d4-a716-446655440005", code := "HEMAT20K",
     vtype := VoucherType.FIXED, value := 20000, isActive := true }]

/-- initialAffiliates (dataService.ts lines 70-81). -/
def initialAffiliates : List Affiliate :=
  [{ id := "550e8400-e29b-41d4-a716-446655440006", name := "Partner Satu",
     code := "PARTNER1", password := "123", commissionRate := 10,
     totalEarnings := 150000, bankDetails := "BCA 123456", isActive := true }]

/-- The credential injection inside get (dataService.ts lines 89-94): when the
parsed settings lack a truthy supabaseUrl or supabaseKey, each defined
environment variable overwrites the corresponding field. -/
def envPatch (env : EnvVars) (s : StoreSettings) : StoreSettings :=
  if strFalsy s.supabaseUrl || strFalsy s.supabaseKey then
    { s with
      supabaseUrl := if strFalsy env.url then s.supabaseUrl else env.url,
      supabaseKey := if strFalsy env.key then s.supabaseKey else env.key }
  else s

/-- DataService.getSettings (dataService.ts lines 84-99, 106): absent key or
unparsable value falls back to the default; a parsed value passes through
the credential injection. -/
def dsGetSettings (env : EnvVars) (store : JStore) : StoreSettings :=
  match jget store "ds_settings" with
  | none => initialSettings env
  | some j =>
    match decodeSettings j with
    | some s => envPatch env s
    | none => initialSettings env

/-- DataService.saveSettings. -/
def dsSaveSettings (store : JStore) (s : StoreSettings) : JStore :=
  jset store "ds_settings" (encodeSettings s)

/-- DataService.getProducts. -/
def dsGetProducts (store : JStore) : List Product :=
  match jget store "ds_products" with
  | none => initialProducts
  | some j => (decodeProducts j).getD initialProducts

/-- DataService.saveProducts. -/
def dsSaveProducts (store : JStore) (ps : List Product) : JStore :=
  jset store "ds_products" (Json.jarr (ps.map encodeProduct))

/-- DataService.getVouchers. -/
def dsGetVouchers (store : JStore) : List Voucher :=
  match jget store "ds_vouchers" with
  | none => initialVouchers
  | some j => (decodeVouchers j).getD initialVouchers

/-- DataService.saveVouchers. -/
def dsSaveVouchers (store : JStore) (vs : List Voucher) : JStore :=
  jset store "ds_vouchers" (Json.jarr (vs.map encodeVoucher))

/-- DataService.getAffiliates. -/
def dsGetAffiliates (store : JStore) : List Affiliate :=
  match jget store "ds_affiliates" with
  | none => initialAffiliates
  | some j => (decodeAffiliates j).getD initialAffiliates

/-- DataService.saveAffiliates. -/
def dsSaveAffiliates (store : JStore) (affs : List Affiliate) : JStore :=
  jset store "ds_affiliates" (Json.jarr (affs.map encodeAffiliate))

/-- DataService.getPayments. -/
def dsGetPayments (store : JStore) : List PaymentMethod :=
  match jget store "ds_payments" with
  | none => initialPayments
  | some j => (decodePayments j).getD initialPayments

/-- DataService.savePayments. -/
def dsSavePayments (store : JStore) (pms : List PaymentMethod) : JStore :=
  jset store "ds_payments" (Json.jarr (pms.map encodePayment))

-- ---------------------------------------------------------------------------
-- Helper lemmas
-- ---------------------------------------------------------------------------

/-- A left fold accumulating a sum equals the initial value plus the sum of
the mapped list. -/
theorem foldl_add_eq_sum {α : Type} (f : α → ℚ) :
    ∀ (l : List α) (init : ℚ),
      l.foldl (fun s x => s + f x) init = init + (l.map f).sum := by
  intro l
  induction l with
  | nil => intro init; simp
  | cons x xs ih =>
    intro init
    simp only [List.foldl_cons, List.map_cons, List.sum_cons, ih]
    ring

-- ---------------------------------------------------------------------------
-- Claim theorems
-- ---------------------------------------------------------------------------

/-- C2: for every cart and every applied voucher (either type, any value), the
checkout total is the subtotal minus the discount clamped below at zero, and
is never negative. -/
theorem checkout_total_clamped (cart : List CartItem) (v : Voucher) :
    checkoutTotal cart (some v)
      = (if subTotal cart - discountAmount (some v) (subTotal cart) < 0 then 0
         else subTotal cart - discountAmount (some v) (subTotal cart))
    ∧ 0 ≤ checkoutTotal cart (some v) := by
  constructor
  · unfold checkoutTotal
    rw [max_def]
    split_ifs with h1 h2 h2 <;> first | rfl | linarith
  · exact le_max_left 0 _

/-- C3 counterexample: at subtotal 101 with an active PERCENT voucher of value
50, the code computes discount = 101 * 50 / 100 = 50.5, not the round-half-up
value 51 the claim asserts. -/
theorem discount_not_rounded_counterexample :
    discountAmount
        (some { id := "v1", code := "HALF50", vtype := VoucherType.PERCENT,
                value := 50, isActive := true }) 101
      = 101 * 50 / 100
    ∧ discountAmount
        (some { id := "v1", code := "HALF50", vtype := VoucherType.PERCENT,
                value := 50, isActive := true }) 101
      ≠ ((jsRound (101 * 50 / 100) : ℤ) : ℚ) := by
  constructor
  · rfl
  · norm_num [discountAmount, jsRound]

/-- C3 amended: a PERCENT voucher of value v yields the exact, unrounded
discount subtotal * v / 100 (equivalently discount * 100 = subtotal * v); a
FIXED voucher of value v yields discount = v. No rounding is applied at the
point of computation. -/
theorem discount_exact_division (sub : ℚ) (v : Voucher) :
    (v.vtype = VoucherType.PERCENT →
      discountAmount (some v) sub * 100 = sub * v.value)
    ∧ (v.vtype = VoucherType.FIXED → discountAmount (some v) sub = v.value) := by
  constructor
  · intro h
    simp only [discountAmount, h]
    field_simp
  · intro h
    simp only [discountAmount, h]

/-- C3 witness: the amended theorem applied to the concrete DISKON10 scenario
of the spec (10 percent of 249000). -/
theorem discount_exact_division_witness :
    discountAmount
        (some { id := "550e8400-e29b-41d4-a716-446655440004", code := "DISKON10",
                vtype := VoucherType.PERCENT, value := 10, isActive := true })
        249000 * 100
      = 249000 * 10 :=
  (discount_exact_division 249000
    { id := "550e8400-e29b-41d4-a716-446655440004", code := "DISKON10",
      vtype := VoucherType.PERCENT, value := 10, isActive := true }).1 rfl

/-- C4 counterexample: an item whose discountPrice is present but zero is
priced at its full price by the code (JS || treats 0 as falsy), while the
claimed formula (discountPrice if present, else price) prices it at 0. -/
theorem subtotal_zero_discount_counterexample :
    subTotal
        [{ toProduct :=
            { id := "p1", name := "Zero", image := "", category := "",
              description := "", price := 100, discountPrice := some 0,
              fileUrl := none, isPopular := none }, quantity := 1 }]
      = 100
    ∧ ([({ toProduct :=
            { id := "p1", name := "Zero", image := "", category := "",
              description := "", price := 100, discountPrice := some 0,
              fileUrl := none, isPopular := none }, quantity := 1 } : CartItem)].map
        (fun it => it.discountPrice.getD it.toProduct.price * (it.quantity : ℚ))).sum
      = 0
    ∧ (100 : ℚ) ≠ 0 := by
  refine ⟨?_, ?_, by norm_num⟩
  · simp [subTotal, effectiveUnitPrice]
  · simp

/-- C4 amended: for every cart, the checkout subtotal is the sum over the
items of (discountPrice if present and nonzero, else price) times
quantity. -/
theorem subtotal_is_sum (cart : List CartItem) :
    subTotal cart
      = (cart.map (fun it =>
          (match it.discountPrice with
           | some d => if d = 0 then it.toProduct.price else d
           | none => it.toProduct.price) * (it.quantity : ℚ))).sum := by
  unfold subTotal
  rw [foldl_add_eq_sum (fun item => effectiveUnitPrice item * (item.quantity : ℚ))
    cart 0]
  simp [effectiveUnitPrice]

/-- Mapping a keyed bump over a decomposed list touches exactly the
distinguished element when no other element shares its key. -/
theorem map_bump_decomp {α : Type} (key : α → String) (f : α → α)
    (pre post : List α) (x : α)
    (hpre : ∀ y ∈ pre, key y ≠ key x) (hpost : ∀ y ∈ post, key y ≠ key x) :
    (pre ++ x :: post).map (fun a => if key a == key x then f a else a)
      = pre ++ f x :: post := by
  rw [List.map_append, List.map_cons]
  have h1 : pre.map (fun a => if key a == key x then f a else a) = pre := by
    have := List.map_congr_left (l := pre)
      (f := fun a => if key a == key x then f a else a) (g := id)
      (fun y hy => by simp [hpre y hy])
    simpa using this
  have h2 : post.map (fun a => if key a == key x then f a else a) = post := by
    have := List.map_congr_left (l := post)
      (f := fun a => if key a == key x then f a else a) (g := id)
      (fun y hy => by simp [hpost y hy])
    simpa using this
  rw [h1, h2]
  simp

/-- Nodup of mapped keys over a decomposition gives key-freshness on both
sides. -/
theorem nodup_key_decomp {α : Type} (key : α → String)
    (pre post : List α) (x : α)
    (hid : ((pre ++ x :: post).map key).Nodup) :
    (∀ y ∈ pre, key y ≠ key x) ∧ (∀ y ∈ post, key y ≠ key x) := by
  rw [List.map_append, List.map_cons] at hid
  obtain ⟨h1, h2, hdisj⟩ := List.nodup_append.mp hid
  obtain ⟨hx, h3⟩ := List.nodup_cons.mp h2
  constructor
  · intro y hy heq
    exact hdisj (List.mem_map_of_mem key hy) (heq ▸ List.mem_cons_self _ _)
  · intro y hy heq
    exact hx (heq ▸ List.mem_map_of_mem key hy)

/-- C1 counterexample: with two affiliates sharing the referral code REF1, the
first inactive and the second active, the claim's premise holds (some
affiliate's code matches and that affiliate is active) yet checkout credits
nothing: find returns the first, inactive match and the collection is
returned unchanged with commission 0, while the claim requires the active
match's totalEarnings to grow by round(1000 * 10 / 100) = 100. -/
theorem checkout_commission_counterexample :
    (∃ a ∈
        [({ id := "a", name := "First", code := "REF1", password := "p",
            commissionRate := 10, totalEarnings := 0, bankDetails := "",
            isActive := false } : Affiliate),
         { id := "b", name := "Second", code := "REF1", password := "q",
           commissionRate := 10, totalEarnings := 0, bankDetails := "",
           isActive := true }], a.code = "REF1" ∧ a.isActive = true)
    ∧ creditCommission (some "REF1") 1000
        [{ id := "a", name := "First", code := "REF1", password := "p",
           commissionRate := 10, totalEarnings := 0, bankDetails := "",
           isActive := false },
         { id := "b", name := "Second", code := "REF1", password := "q",
           commissionRate := 10, totalEarnings := 0, bankDetails := "",
           isActive := true }]
      = ([{ id := "a", name := "First", code := "REF1", password := "p",
            commissionRate := 10, totalEarnings := 0, bankDetails := "",
            isActive := false },
          { id := "b", name := "Second", code := "REF1", password := "q",
            commissionRate := 10, totalEarnings := 0, bankDetails := "",
            isActive := true }], 0)
    ∧ jsRound (1000 * 10 / 100) = 100 ∧ (100 : ℤ) ≠ 0 := by
  refine ⟨?_, by decide, by norm_num [jsRound], by decide⟩
  exact ⟨_, List.mem_cons_of_mem _ (List.mem_cons_self _ _), rfl, rfl⟩

/-- C1 amended: for a non-empty referral code, an affiliate collection with
pairwise-distinct ids in which the first affiliate whose code exactly equals
the referral code is active, checkout credits commission
round-half-up(subtotal * commissionRate / 100) to exactly that affiliate:
its totalEarnings grows by the commission, every other record is unchanged,
and the result is a full replacement affiliate collection. -/
theorem checkout_commission_credit (r : String) (sub : ℚ)
    (affs : List Affiliate) (aff : Affiliate)
    (hr : r ≠ "")
    (hid : (affs.map Affiliate.id).Nodup)
    (hfind : affs.find? (fun a => a.code == r) = some aff)
    (hact : aff.isActive = true) :
    ∃ pre post,
      affs = pre ++ aff :: post
      ∧ creditCommission (some r) sub affs
        = (pre
            ++ { aff with totalEarnings :=
                  aff.totalEarnings
                    + ((jsRound (sub * aff.commissionRate / 100) : ℤ) : ℚ) }
              :: post,
           jsRound (sub * aff.commissionRate / 100)) := by
  obtain ⟨pre, post, hsplit⟩ := List.append_of_mem (List.mem_of_find?_eq_some hfind)
  refine ⟨pre, post, hsplit, ?_⟩
  subst hsplit
  obtain ⟨hpre, hpost⟩ := nodup_key_decomp Affiliate.id pre post aff hid
  simp only [creditCommission, if_neg hr, hfind, hact, if_true]
  rw [map_bump_decomp Affiliate.id
    (fun a => { a with totalEarnings :=
      a.totalEarnings + ((jsRound (sub * aff.commissionRate / 100) : ℤ) : ℚ) })
    pre post aff hpre hpost]
  rw [hact]

/-- C1 witness: the amended theorem at the spec's concrete scenario — referral
PARTNER1, rate 10, subtotal 249000, totalEarnings 150000 growing by 24900. -/
theorem checkout_commission_credit_witness :
    ∃ pre post,
      [({ id := "550e8400-e29b-41d4-a716-446655440006", name := "Partner Satu",
          code := "PARTNER1", password := "123", commissionRate := 10,
          totalEarnings := 150000, bankDetails := "BCA 123456",
          isActive := true } : Affiliate)] = pre
        ++ ({ id := "550e8400-e29b-41d4-a716-446655440006", name := "Partner Satu",
              code := "PARTNER1", password := "123", commissionRate := 10,
              totalEarnings := 150000, bankDetails := "BCA 123456",
              isActive := true } : Affiliate) :: post
      ∧ creditCommission (some "PARTNER1") 249000
          [{ id := "550e8400-e29b-41d4-a716-446655440006", name := "Partner Satu",
             code := "PARTNER1", password := "123", commissionRate := 10,
             totalEarnings := 150000, bankDetails := "BCA 123456",
             isActive := true }]
        = (pre
            ++ { id := "550e8400-e29b-41d4-a716-446655440006",
                 name := "Partner Satu", code := "PARTNER1", password := "123",
                 commissionRate := 10,
                 totalEarnings :=
                   150000 + ((jsRound (249000 * 10 / 100) : ℤ) : ℚ),
                 bankDetails := "BCA 123456", isActive := true } :: post,
           jsRound (249000 * 10 / 100)) :=
  checkout_commission_credit "PARTNER1" 249000 _ _ (by decide) (by decide)
    (by decide) rfl

/-- C5: checkout credits zero commission and leaves the affiliate collection
unchanged when no referral code is present, or no affiliate's canonical
(uppercase, trimmed) code equals the canonical referral code (exact equality
implies canonical equality, so no canonical match means no match at all), or
the affiliate the checkout matches is inactive. -/
theorem no_commission_on_miss (referral : Option String) (sub : ℚ)
    (affs : List Affiliate)
    (h : referral = none
      ∨ (∃ r, referral = some r
          ∧ ∀ a ∈ affs, canonicalCode a.code ≠ canonicalCode r)
      ∨ (∃ r aff, referral = some r
          ∧ affs.find? (fun a => a.code == r) = some aff
          ∧ aff.isActive = false)) :
    creditCommission referral sub affs = (affs, 0) := by
  rcases h with h | ⟨r, hr, hnone⟩ | ⟨r, aff, hr, hfind, hinact⟩
  · subst h; rfl
  · subst hr
    by_cases hre : r = ""
    · simp [creditCommission, hre]
    · have hf : affs.find? (fun a => a.code == r) = none := by
        rw [List.find?_eq_none]
        intro a ha hba
        have : a.code = r := by simpa using hba
        exact hnone a ha (by rw [this])
      simp [creditCommission, hre, hf]
  · subst hr
    by_cases hre : r = ""
    · simp [creditCommission, hre]
    · simp [creditCommission, hre, hfind, hinact]

/-- C5 witness: a checkout with no referral code at all is a no-op. -/
theorem no_commission_on_miss_witness :
    creditCommission none 5 initialAffiliates = (initialAffiliates, 0) :=
  no_commission_on_miss none 5 initialAffiliates (Or.inl rfl)

/-- C10: addToCart preserves unique cart ids and positive quantities; an
existing line with the product's id has exactly its quantity incremented by
one with every other line unchanged, and a new product is appended with
quantity 1. -/
theorem addToCart_invariant (product : Product) (prev : List CartItem)
    (hid : (prev.map (fun c => c.toProduct.id)).Nodup)
    (hq : ∀ c ∈ prev, 0 < c.quantity) :
    ((addToCart product prev).map (fun c => c.toProduct.id)).Nodup
    ∧ (∀ c ∈ addToCart product prev, 0 < c.quantity)
    ∧ ((∀ c ∈ prev, c.toProduct.id ≠ product.id) →
        addToCart product prev = prev ++ [{ toProduct := product, quantity := 1 }])
    ∧ (∀ pre item post, prev = pre ++ item :: post →
        item.toProduct.id = product.id →
        addToCart product prev
          = pre ++ { item with quantity := item.quantity + 1 } :: post) := by
  cases hfind : prev.find? (fun p => p.toProduct.id == product.id) with
  | none =>
    have hno : ∀ c ∈ prev, c.toProduct.id ≠ product.id := by
      intro c hc
      have := List.find?_eq_none.mp hfind c hc
      simpa using this
    have hbranch : addToCart product prev
        = prev ++ [{ toProduct := product, quantity := 1 }] := by
      simp [addToCart, hfind]
    refine ⟨?_, ?_, fun _ => hbranch, ?_⟩
    · rw [hbranch, List.map_append]
      rw [List.nodup_append]
      refine ⟨hid, by simp, ?_⟩
      intro a ha hb
      simp only [List.map_cons, List.map_nil, List.mem_singleton] at hb
      obtain ⟨c, hc, hcid⟩ := List.mem_map.mp ha
      exact hno c hc (by rw [hcid, hb])
    · intro c hc
      rw [hbranch] at hc
      rcases List.mem_append.mp hc with h | h
      · exact hq c h
      · simp only [List.mem_singleton] at h
        subst h
        exact Nat.zero_lt_one
    · intro pre item post hsplit hitem
      exfalso
      exact hno item (hsplit ▸ List.mem_append_right pre (List.mem_cons_self _ _))
        hitem
  | some found =>
    have hbranch : addToCart product prev
        = prev.map (fun p =>
            if p.toProduct.id == product.id then
              { p with quantity := p.quantity + 1 }
            else p) := by
      simp [addToCart, hfind]
    refine ⟨?_, ?_, ?_, ?_⟩
    · rw [hbranch, List.map_map]
      have : ((fun (c : CartItem) => c.toProduct.id) ∘ (fun (p : CartItem) =>
          if p.toProduct.id == product.id then
            { p with quantity := p.quantity + 1 }
          else p)) = fun (c : CartItem) => c.toProduct.id := by
        funext p
        by_cases h : (p.toProduct.id == product.id) = true <;> simp [Function.comp, h]
      rw [this]
      exact hid
    · intro c hc
      rw [hbranch] at hc
      obtain ⟨p, hp, hpc⟩ := List.mem_map.mp hc
      by_cases h : (p.toProduct.id == product.id) = true
      · rw [if_pos h] at hpc
        subst hpc
        exact Nat.succ_pos _
      · rw [if_neg h] at hpc
        subst hpc
        exact hq p hp
    · intro hno
      exfalso
      have hmem := List.mem_of_find?_eq_some hfind
      have hpred := List.find?_some hfind
      exact hno found hmem (by simpa using hpred)
    · intro pre item post hsplit hitem
      rw [hbranch]
      subst hsplit
      obtain ⟨hpre, hpost⟩ :=
        nodup_key_decomp (fun c => c.toProduct.id) pre post item hid
      rw [← hitem]
      exact map_bump_decomp (fun c => c.toProduct.id)
        (fun p => { p with quantity := p.quantity + 1 }) pre post item hpre hpost

/-- C10 witness: adding a product to a cart already holding it, at the spec's
example prices, bumps exactly that line. -/
theorem addToCart_invariant_witness :
    ((addToCart
        { id := "p1", name := "Premium UI Kit", image := "", category := "Design",
          description := "", price := 150000, discountPrice := some 99000,
          fileUrl := none, isPopular := some true }
        [{ toProduct :=
            { id := "p1", name := "Premium UI Kit", image := "",
              category := "Design", description := "", price := 150000,
              discountPrice := some 99000, fileUrl := none,
              isPopular := some true }, quantity := 1 }]).map
      (fun c => c.toProduct.id)).Nodup :=
  (addToCart_invariant
    { id := "p1", name := "Premium UI Kit", image := "", category := "Design",
      description := "", price := 150000, discountPrice := some 99000,
      fileUrl := none, isPopular := some true }
    [{ toProduct :=
        { id := "p1", name := "Premium UI Kit", image := "",
          category := "Design", description := "", price := 150000,
          discountPrice := some 99000, fileUrl := none,
          isPopular := some true }, quantity := 1 }]
    (by decide) (by decide)).1

/-- runPush commits exactly the longest successful prefix of the plan and
surfaces the first failure's message. -/
theorem runPush_characterization (resp : SyncTable → Except String Unit) :
    ∀ l : List SyncTable,
      runPush resp l
        = (l.takeWhile (fun t => upsertOk (resp t)),
           (l.dropWhile (fun t => upsertOk (resp t))).head?.bind
             (fun t => upsertErr (resp t))) := by
  intro l
  induction l with
  | nil => rfl
  | cons t ts ih =>
    cases hresp : resp t with
    | ok u =>
      cases u
      simp [runPush, hresp, ih, List.takeWhile_cons, List.dropWhile_cons,
        upsertOk, upsertErr]
    | error e =>
      simp [runPush, hresp, List.takeWhile_cons, List.dropWhile_cons,
        upsertOk, upsertErr]

/-- C7: the push plan is an in-order selection from the fixed sequence
products, vouchers, affiliates, settings, payment methods; settings is
always attempted; each non-settings table is attempted exactly when its
collection is non-empty; the run commits the longest successful prefix of
the plan (earlier upserts stay committed) and the surfaced failure reason is
the first failing upsert's error, with nothing after it attempted. -/
theorem sync_push_order_and_abort (s : AppSt)
    (resp : SyncTable → Except String Unit) :
    (pushPlan s).Sublist
        [SyncTable.products, SyncTable.vouchers, SyncTable.affiliates,
         SyncTable.settings, SyncTable.payments]
    ∧ SyncTable.settings ∈ pushPlan s
    ∧ (SyncTable.products ∈ pushPlan s ↔ s.products ≠ [])
    ∧ (SyncTable.vouchers ∈ pushPlan s ↔ s.vouchers ≠ [])
    ∧ (SyncTable.affiliates ∈ pushPlan s ↔ s.affiliates ≠ [])
    ∧ (SyncTable.payments ∈ pushPlan s ↔ s.paymentMethods ≠ [])
    ∧ (handleSync resp s).1 = (pushPlan s).takeWhile (fun t => upsertOk (resp t))
    ∧ (handleSync resp s).2
        = ((pushPlan s).dropWhile (fun t => upsertOk (resp t))).head?.bind
            (fun t => upsertErr (resp t)) := by
  refine ⟨?_, ?_, ?_, ?_, ?_, ?_, ?_, ?_⟩
  · unfold pushPlan
    cases hp : s.products.isEmpty <;> cases hv : s.vouchers.isEmpty <;>
      cases ha : s.affiliates.isEmpty <;> cases hm : s.paymentMethods.isEmpty <;>
      first
      | (simp; decide)
      | decide
  · unfold pushPlan
    cases hp : s.products.isEmpty <;> cases hv : s.vouchers.isEmpty <;>
      cases ha : s.affiliates.isEmpty <;> cases hm : s.paymentMethods.isEmpty <;>
      simp
  · unfold pushPlan
    cases hp : s.products.isEmpty <;> cases hv : s.vouchers.isEmpty <;>
      cases ha : s.affiliates.isEmpty <;> cases hm : s.paymentMethods.isEmpty <;>
      simp_all [List.isEmpty_iff]
  · unfold pushPlan
    cases hp : s.products.isEmpty <;> cases hv : s.vouchers.isEmpty <;>
      cases ha : s.affiliates.isEmpty <;> cases hm : s.paymentMethods.isEmpty <;>
      simp_all [List.isEmpty_iff]
  · unfold pushPlan
    cases hp : s.products.isEmpty <;> cases hv : s.vouchers.isEmpty <;>
      cases ha : s.affiliates.isEmpty <;> cases hm : s.paymentMethods.isEmpty <;>
      simp_all [List.isEmpty_iff]
  · unfold pushPlan
    cases hp : s.products.isEmpty <;> cases hv : s.vouchers.isEmpty <;>
      cases ha : s.affiliates.isEmpty <;> cases hm : s.paymentMethods.isEmpty <;>
      simp_all [List.isEmpty_iff]
  · rw [show (handleSync resp s) = runPush resp (pushPlan s) from rfl,
      runPush_characterization resp (pushPlan s)]
  · rw [show (handleSync resp s) = runPush resp (pushPlan s) from rfl,
      runPush_characterization resp (pushPlan s)]

/-- ensureUuid applied after an ensureUuid pass with a valid fresh id is a
no-op on products. -/
theorem ensureUuidProduct_stable (fresh fresh2 : String) (p : Product)
    (h : isValidUUID fresh = true) :
    ensureUuidProduct fresh2 (ensureUuidProduct fresh p)
      = ensureUuidProduct fresh p := by
  unfold ensureUuidProduct
  by_cases hv : isValidUUID p.id = true <;> simp [hv, h]

/-- ensureUuid stability on vouchers. -/
theorem ensureUuidVoucher_stable (fresh fresh2 : String) (v : Voucher)
    (h : isValidUUID fresh = true) :
    ensureUuidVoucher fresh2 (ensureUuidVoucher fresh v)
      = ensureUuidVoucher fresh v := by
  unfold ensureUuidVoucher
  by_cases hv : isValidUUID v.id = true <;> simp [hv, h]

/-- ensureUuid stability on affiliates. -/
theorem ensureUuidAffiliate_stable (fresh fresh2 : String) (a : Affiliate)
    (h : isValidUUID fresh = true) :
    ensureUuidAffiliate fresh2 (ensureUuidAffiliate fresh a)
      = ensureUuidAffiliate fresh a := by
  unfold ensureUuidAffiliate
  by_cases hv : isValidUUID a.id = true <;> simp [hv, h]

/-- ensureUuid stability on payment methods. -/
theorem ensureUuidPayment_stable (fresh fresh2 : String) (pm : PaymentMethod)
    (h : isValidUUID fresh = true) :
    ensureUuidPayment fresh2 (ensureUuidPayment fresh pm)
      = ensureUuidPayment fresh pm := by
  unfold ensureUuidPayment
  by_cases hv : isValidUUID pm.id = true <;> simp [hv, h]

/-- A second normalization pass over an already-normalized list changes
nothing, for any ensure that is stable under valid fresh ids. -/
theorem normalizeList_idem {α : Type} (ensure : String → α → α)
    (g g2 : ℕ → String)
    (hstable : ∀ fresh fresh2 x, isValidUUID fresh = true →
      ensure fresh2 (ensure fresh x) = ensure fresh x)
    (hg : ∀ n, isValidUUID (g n) = true) :
    ∀ (j i : ℕ) (xs : List α),
      normalizeList ensure g2 j (normalizeList ensure g i xs)
        = normalizeList ensure g i xs := by
  intro j i xs
  induction xs generalizing j i with
  | nil => rfl
  | cons x xs ih =>
    simp only [normalizeList]
    rw [hstable (g i) (g2 j) x (hg i), ih]

/-- C8: id normalization is idempotent — a record whose id is already a valid
36-character hyphenated hexadecimal token passes through ensureUuid
unchanged (for each of the four id-carrying collections), and when the
generator only emits valid canonical ids (generateUUID does), a second
normalization pass over the written-back state reproduces exactly the same
ids, whatever the second pass's generator would have produced. -/
theorem id_normalization_idempotent (fresh : String) (g g2 : ℕ → String)
    (s : AppSt) (hg : ∀ n, isValidUUID (g n) = true) :
    (∀ p : Product, isValidUUID p.id = true → ensureUuidProduct fresh p = p)
    ∧ (∀ v : Voucher, isValidUUID v.id = true → ensureUuidVoucher fresh v = v)
    ∧ (∀ a : Affiliate, isValidUUID a.id = true → ensureUuidAffiliate fresh a = a)
    ∧ (∀ pm : PaymentMethod, isValidUUID pm.id = true →
        ensureUuidPayment fresh pm = pm)
    ∧ normalizeState g2 (normalizeState g s) = normalizeState g s := by
  refine ⟨?_, ?_, ?_, ?_, ?_⟩
  · intro p h; simp [ensureUuidProduct, h]
  · intro v h; simp [ensureUuidVoucher, h]
  · intro a h; simp [ensureUuidAffiliate, h]
  · intro pm h; simp [ensureUuidPayment, h]
  · unfold normalizeState
    simp only
    rw [normalizeList_idem ensureUuidProduct g g2
        (fun f f2 x h => ensureUuidProduct_stable f f2 x h) hg,
      normalizeList_idem ensureUuidVoucher g g2
        (fun f f2 x h => ensureUuidVoucher_stable f f2 x h) hg,
      normalizeList_idem ensureUuidAffiliate g g2
        (fun f f2 x h => ensureUuidAffiliate_stable f f2 x h) hg,
      normalizeList_idem ensureUuidPayment g g2
        (fun f f2 x h => ensureUuidPayment_stable f f2 x h) hg]

/-- The fixed fresh id used in the C8 witness is a valid canonical token. -/
theorem validFreshUuid (_ : ℕ) :
    isValidUUID "00000000-0000-4000-8000-000000000000" = true := by decide

/-- C8 witness: a canonical id passes through unchanged, and double
normalization of the shipped initial data with a fixed valid generator is a
no-op. -/
theorem id_normalization_idempotent_witness :
    ensureUuidProduct "ffffffff-ffff-4fff-8fff-ffffffffffff"
        { id := "550e8400-e29b-41d4-a716-446655440001", name := "Premium UI Kit",
          category := "Design", price := 150000, discountPrice := some 99000,
          image := "https://picsum.photos/id/1/400/400",
          description := "High quality UI Kit for mobile apps.",
          fileUrl := none, isPopular := some true }
      = { id := "550e8400-e29b-41d4-a716-446655440001", name := "Premium UI Kit",
          category := "Design", price := 150000, discountPrice := some 99000,
          image := "https://picsum.photos/id/1/400/400",
          description := "High quality UI Kit for mobile apps.",
          fileUrl := none, isPopular := some true }
    ∧ normalizeState (fun _ => "ffffffff-ffff-4fff-8fff-ffffffffffff")
        (normalizeState (fun _ => "00000000-0000-4000-8000-000000000000")
          { products := initialProducts, vouchers := initialVouchers,
            affiliates := initialAffiliates,
            settings := initialSettings { url := none, key := none },
            paymentMethods := initialPayments })
      = normalizeState (fun _ => "00000000-0000-4000-8000-000000000000")
          { products := initialProducts, vouchers := initialVouchers,
            affiliates := initialAffiliates,
            settings := initialSettings { url := none, key := none },
            paymentMethods := initialPayments } :=
  ⟨(id_normalization_idempotent "ffffffff-ffff-4fff-8fff-ffffffffffff"
      (fun _ => "00000000-0000-4000-8000-000000000000")
      (fun _ => "ffffffff-ffff-4fff-8fff-ffffffffffff")
      { products := initialProducts, vouchers := initialVouchers,
        affiliates := initialAffiliates,
        settings := initialSettings { url := none, key := none },
        paymentMethods := initialPayments }
      (fun n => validFreshUuid n)).1 _ (by decide),
   (id_normalization_idempotent "ffffffff-ffff-4fff-8fff-ffffffffffff"
      (fun _ => "00000000-0000-4000-8000-000000000000")
      (fun _ => "ffffffff-ffff-4fff-8fff-ffffffffffff")
      { products := initialProducts, vouchers := initialVouchers,
        affiliates := initialAffiliates,
        settings := initialSettings { url := none, key := none },
        paymentMethods := initialPayments }
      (fun n => validFreshUuid n)).2.2.2.2⟩

/-- C6 counterexample: a successful pull whose remote payment_methods
collection is empty leaves a non-empty local payment-method collection (here
the shipped defaults) in place, in memory and on disk, instead of replacing
it with the empty remote collection as the claim requires of every managed
collection. -/
theorem pull_empty_payments_counterexample :
    (fetchData
        { products := [], vouchers := [], affiliates := [], settings := none,
          payments := [] }
        { mem :=
            { products := [], vouchers := [], affiliates := [],
              settings := initialSettings { url := none, key := none },
              paymentMethods := initialPayments },
          disk :=
            { products := [], vouchers := [], affiliates := [],
              settings := initialSettings { url := none, key := none },
              paymentMethods := initialPayments } }).mem.paymentMethods
      = initialPayments
    ∧ (fetchData
        { products := [], vouchers := [], affiliates := [], settings := none,
          payments := [] }
        { mem :=
            { products := [], vouchers := [], affiliates := [],
              settings := initialSettings { url := none, key := none },
              paymentMethods := initialPayments },
          disk :=
            { products := [], vouchers := [], affiliates := [],
              settings := initialSettings { url := none, key := none },
              paymentMethods := initialPayments } }).disk.paymentMethods
      = initialPayments
    ∧ initialPayments ≠ [] := by
  refine ⟨rfl, rfl, by decide⟩

/-- C6 amended: on a successful pull, the remote collection fully overwrites
local in-memory and persisted state for products, vouchers and affiliates
(including overwriting with an empty remote collection); payment methods are
overwritten only when the remote collection is non-empty, an empty remote
collection leaving local state untouched; the settings row, when present,
overwrites every settings field except the locally-held supabaseUrl and
supabaseKey credentials, which are preserved, and when absent leaves
settings untouched. -/
theorem pull_overwrite_semantics (r : RemoteData) (st : SyncState) :
    (fetchData r st).mem.products = r.products.map mapRemoteProduct
    ∧ (fetchData r st).disk.products = r.products.map mapRemoteProduct
    ∧ (fetchData r st).mem.vouchers = r.vouchers.map mapRemoteVoucher
    ∧ (fetchData r st).disk.vouchers = r.vouchers.map mapRemoteVoucher
    ∧ (fetchData r st).mem.affiliates = r.affiliates.map mapRemoteAffiliate
    ∧ (fetchData r st).disk.affiliates = r.affiliates.map mapRemoteAffiliate
    ∧ (r.payments ≠ [] →
        (fetchData r st).mem.paymentMethods = r.payments.map mapRemotePayment
        ∧ (fetchData r st).disk.paymentMethods = r.payments.map mapRemotePayment)
    ∧ (r.payments = [] →
        (fetchData r st).mem.paymentMethods = st.mem.paymentMethods
        ∧ (fetchData r st).disk.paymentMethods = st.disk.paymentMethods)
    ∧ (∀ rs, r.settings = some rs →
        (fetchData r st).mem.settings.supabaseUrl = st.mem.settings.supabaseUrl
        ∧ (fetchData r st).mem.settings.supabaseKey = st.mem.settings.supabaseKey
        ∧ (fetchData r st).mem.settings.storeName = rs.store_name
        ∧ (fetchData r st).mem.settings.address = rs.address
        ∧ (fetchData r st).mem.settings.whatsapp = rs.whatsapp
        ∧ (fetchData r st).mem.settings.email = rs.email
        ∧ (fetchData r st).mem.settings.description = rs.description
        ∧ (fetchData r st).mem.settings.logoUrl = rs.logo_url
        ∧ (fetchData r st).mem.settings.tripayApiKey = rs.tripay_api_key
        ∧ (fetchData r st).mem.settings.tripayPrivateKey = rs.tripay_private_key
        ∧ (fetchData r st).mem.settings.tripayMerchantCode
            = rs.tripay_merchant_code
        ∧ (fetchData r st).disk.settings = (fetchData r st).mem.settings)
    ∧ (r.settings = none →
        (fetchData r st).mem.settings = st.mem.settings
        ∧ (fetchData r st).disk.settings = st.disk.settings) := by
  refine ⟨rfl, rfl, rfl, rfl, rfl, rfl, ?_, ?_, ?_, ?_⟩
  · intro h
    have he : r.payments.isEmpty = false := by
      cases hp : r.payments with
      | nil => exact absurd hp h
      | cons a l => rfl
    constructor <;> simp [fetchData, he]
  · intro h
    have he : r.payments.isEmpty = true := by rw [h]; rfl
    constructor <;> simp [fetchData, he]
  · intro rs hs
    refine ⟨?_, ?_, ?_, ?_, ?_, ?_, ?_, ?_, ?_, ?_, ?_, ?_⟩ <;>
      simp [fetchData, hs, mergeSettings]
  · intro hs
    constructor <;> simp [fetchData, hs]

/-- C6 witness: the amended theorem at a concrete pull carrying one remote
payment row and a settings row, against the shipped defaults. -/
theorem pull_overwrite_semantics_witness :
    (fetchData
        { products := [], vouchers := [], affiliates := [],
          settings := some
            { store_name := "Remote Store", address := "A", whatsapp := "W",
              email := "E", description := "D", logo_url := "L",
              tripay_api_key := some "TA", tripay_private_key := none,
              tripay_merchant_code := none },
          payments := [{ id := "pm1", ptype := PayKind.QRIS, name := "QRIS",
                         account_number := none, account_name := none,
                         description := none, logo := none,
                         is_active := some true }] }
        { mem :=
            { products := initialProducts, vouchers := initialVouchers,
              affiliates := initialAffiliates,
              settings := initialSettings { url := some "u", key := some "k" },
              paymentMethods := initialPayments },
          disk :=
            { products := initialProducts, vouchers := initialVouchers,
              affiliates := initialAffiliates,
              settings := initialSettings { url := some "u", key := some "k" },
              paymentMethods := initialPayments } }).mem.paymentMethods
      = [({ id := "pm1", ptype := PayKind.QRIS, name := "QRIS",
            account_number := none, account_name := none, description := none,
            logo := none, is_active := some true } : RPayment)].map
          mapRemotePayment
    ∧ (fetchData
        { products := [], vouchers := [], affiliates := [],
          settings := some
            { store_name := "Remote Store", address := "A", whatsapp := "W",
              email := "E", description := "D", logo_url := "L",
              tripay_api_key := some "TA", tripay_private_key := none,
              tripay_merchant_code := none },
          payments := [{ id := "pm1", ptype := PayKind.QRIS, name := "QRIS",
                         account_number := none, account_name := none,
                         description := none, logo := none,
                         is_active := some true }] }
        { mem :=
            { products := initialProducts, vouchers := initialVouchers,
              affiliates := initialAffiliates,
              settings := initialSettings { url := some "u", key := some "k" },
              paymentMethods := initialPayments },
          disk :=
            { products := initialProducts, vouchers := initialVouchers,
              affiliates := initialAffiliates,
              settings := initialSettings { url := some "u", key := some "k" },
              paymentMethods := initialPayments } }).mem.settings.supabaseUrl
      = (initialSettings { url := some "u", key := some "k" }).supabaseUrl := by
  have h := pull_overwrite_semantics
    { products := [], vouchers := [], affiliates := [],
      settings := some
        { store_name := "Remote Store", address := "A", whatsapp := "W",
          email := "E", description := "D", logo_url := "L",
          tripay_api_key := some "TA", tripay_private_key := none,
          tripay_merchant_code := none },
      payments := [{ id := "pm1", ptype := PayKind.QRIS, name := "QRIS",
                     account_number := none, account_name := none,
                     description := none, logo := none,
                     is_active := some true }] }
    { mem :=
        { products := initialProducts, vouchers := initialVouchers,
          affiliates := initialAffiliates,
          settings := initialSettings { url := some "u", key := some "k" },
          paymentMethods := initialPayments },
      disk :=
        { products := initialProducts, vouchers := initialVouchers,
          affiliates := initialAffiliates,
          settings := initialSettings { url := some "u", key := some "k" },
          paymentMethods := initialPayments } }
  exact ⟨(h.2.2.2.2.2.2.1 (by decide)).1, (h.2.2.2.2.2.2.2.2.1 _ rfl).1⟩

/-- Reading a freshly written key returns the written value. -/
theorem jget_jset (store : JStore) (k : String) (j : Json) :
    jget (jset store k j) k = some j := by
  simp [jget, jset, List.find?]

/-- Element-wise decoding inverts element-wise encoding. -/
theorem decodeListWith_roundtrip {α : Type} (enc : α → Json)
    (dec : Json → Option α) (h : ∀ a, dec (enc a) = some a) :
    ∀ l : List α, decodeListWith dec (l.map enc) = some l := by
  intro l
  induction l with
  | nil => rfl
  | cons x xs ih => simp [decodeListWith, h, ih]

/-- Decoding inverts encoding on products. -/
theorem decodeProduct_roundtrip (p : Product) :
    decodeProduct (encodeProduct p) = some p := by
  obtain ⟨i, n, im, c, d, pr, dp, fu, pop⟩ := p
  cases dp <;> cases fu <;> cases pop <;> rfl

/-- Decoding inverts encoding on vouchers. -/
theorem decodeVoucher_roundtrip (v : Voucher) :
    decodeVoucher (encodeVoucher v) = some v := by
  obtain ⟨i, c, t, va, a⟩ := v
  cases t <;> rfl

/-- Decoding inverts encoding on affiliates. -/
theorem decodeAffiliate_roundtrip (a : Affiliate) :
    decodeAffiliate (encodeAffiliate a) = some a := by
  obtain ⟨i, n, c, pw, r, e, b, act⟩ := a
  rfl

/-- Decoding inverts encoding on payment methods. -/
theorem decodePayment_roundtrip (pm : PaymentMethod) :
    decodePayment (encodePayment pm) = some pm := by
  obtain ⟨i, t, n, an, am, d, lg, act⟩ := pm
  cases t <;> cases an <;> cases am <;> cases d <;> cases lg <;> cases act <;> rfl

/-- Decoding inverts encoding on settings. -/
theorem decodeSettings_roundtrip (s : StoreSettings) :
    decodeSettings (encodeSettings s) = some s := by
  obtain ⟨sn, ad, wa, em, de, lo, su, sk, ta, tp, tm⟩ := s
  cases su <;> cases sk <;> cases ta <;> cases tp <;> cases tm <;> rfl

/-- C9 counterexample: writing settings with absent credentials and reading
them back in an environment that defines both VITE variables returns a value
with the environment credentials injected, not the written value. -/
theorem store_roundtrip_counterexample :
    dsGetSettings { url := some "https://env.example", key := some "envkey" }
        (dsSaveSettings []
          { storeName := "S", address := "", whatsapp := "", email := "",
            description := "", logoUrl := "", supabaseUrl := none,
            supabaseKey := none, tripayApiKey := none, tripayPrivateKey := none,
            tripayMerchantCode := none })
      ≠ { storeName := "S", address := "", whatsapp := "", email := "",
          description := "", logoUrl := "", supabaseUrl := none,
          supabaseKey := none, tripayApiKey := none, tripayPrivateKey := none,
          tripayMerchantCode := none }
    ∧ (dsGetSettings { url := some "https://env.example", key := some "envkey" }
        (dsSaveSettings []
          { storeName := "S", address := "", whatsapp := "", email := "",
            description := "", logoUrl := "", supabaseUrl := none,
            supabaseKey := none, tripayApiKey := none, tripayPrivateKey := none,
            tripayMerchantCode := none })).supabaseUrl
      = some "https://env.example" := by
  constructor
  · decide
  · decide

/-- C9 amended: writing a managed collection to the Persistent Store and
reading it back with no intervening remote pull yields the value written,
for products, vouchers, affiliates and payment methods unconditionally. For
settings this holds whenever the written value carries truthy credentials or
the environment defines no credential variables. Otherwise — the written
value has a falsy (absent or empty) supabaseUrl or supabaseKey — the read
value is the written value with BOTH credential fields rewritten: each field
whose environment variable is defined is overwritten by that variable, even
when the written field was non-empty, each other field keeps its written
value, and every non-credential settings field is unchanged. -/
theorem store_roundtrip (env : EnvVars) (store : JStore)
    (ps : List Product) (vs : List Voucher) (affs : List Affiliate)
    (pms : List PaymentMethod) (st : StoreSettings) :
    dsGetProducts (dsSaveProducts store ps) = ps
    ∧ dsGetVouchers (dsSaveVouchers store vs) = vs
    ∧ dsGetAffiliates (dsSaveAffiliates store affs) = affs
    ∧ dsGetPayments (dsSavePayments store pms) = pms
    ∧ ((strFalsy st.supabaseUrl = false ∧ strFalsy st.supabaseKey = false)
        ∨ (strFalsy env.url = true ∧ strFalsy env.key = true) →
        dsGetSettings env (dsSaveSettings store st) = st)
    ∧ (strFalsy st.supabaseUrl = true ∨ strFalsy st.supabaseKey = true →
        (dsGetSettings env (dsSaveSettings store st)).supabaseUrl
          = (if strFalsy env.url then st.supabaseUrl else env.url)
        ∧ (dsGetSettings env (dsSaveSettings store st)).supabaseKey
          = (if strFalsy env.key then st.supabaseKey else env.key)
        ∧ (dsGetSettings env (dsSaveSettings store st)).storeName = st.storeName
        ∧ (dsGetSettings env (dsSaveSettings store st)).address = st.address
        ∧ (dsGetSettings env (dsSaveSettings store st)).whatsapp = st.whatsapp
        ∧ (dsGetSettings env (dsSaveSettings store st)).email = st.email
        ∧ (dsGetSettings env (dsSaveSettings store st)).description
          = st.description
        ∧ (dsGetSettings env (dsSaveSettings store st)).logoUrl = st.logoUrl
        ∧ (dsGetSettings env (dsSaveSettings store st)).tripayApiKey
          = st.tripayApiKey
        ∧ (dsGetSettings env (dsSaveSettings store st)).tripayPrivateKey
          = st.tripayPrivateKey
        ∧ (dsGetSettings env (dsSaveSettings store st)).tripayMerchantCode
          = st.tripayMerchantCode) := by
  refine ⟨?_, ?_, ?_, ?_, ?_, ?_⟩
  · unfold dsGetProducts dsSaveProducts
    rw [jget_jset]
    simp [decodeProducts,
      decodeListWith_roundtrip encodeProduct decodeProduct
        decodeProduct_roundtrip ps]
  · unfold dsGetVouchers dsSaveVouchers
    rw [jget_jset]
    simp [decodeVouchers,
      decodeListWith_roundtrip encodeVoucher decodeVoucher
        decodeVoucher_roundtrip vs]
  · unfold dsGetAffiliates dsSaveAffiliates
    rw [jget_jset]
    simp [decodeAffiliates,
      decodeListWith_roundtrip encodeAffiliate decodeAffiliate
        decodeAffiliate_roundtrip affs]
  · unfold dsGetPayments dsSavePayments
    rw [jget_jset]
    simp [decodePayments,
      decodeListWith_roundtrip encodePayment decodePayment
        decodePayment_roundtrip pms]
  · intro h
    unfold dsGetSettings dsSaveSettings
    rw [jget_jset]
    simp only [decodeSettings_roundtrip st]
    unfold envPatch
    rcases h with ⟨h1, h2⟩ | ⟨h1, h2⟩
    · rw [h1, h2]
      simp
    · rw [h1, h2]
      by_cases hc : (strFalsy st.supabaseUrl || strFalsy st.supabaseKey) = true
      · rw [if_pos hc]
        simp
      · rw [if_neg hc]
  · intro h
    have hcond : (strFalsy st.supabaseUrl || strFalsy st.supabaseKey) = true := by
      rcases h with h | h <;> simp [h]
    unfold dsGetSettings dsSaveSettings
    rw [jget_jset]
    simp only [decodeSettings_roundtrip st]
    unfold envPatch
    rw [if_pos hcond]
    exact ⟨rfl, rfl, rfl, rfl, rfl, rfl, rfl, rfl, rfl, rfl, rfl⟩

/-- C9 witness: the amended theorem at concrete data — the shipped default
products round-trip; settings with truthy credentials round-trip in an empty
environment; and in the overwrite branch, settings written with an empty
supabaseUrl and a non-empty supabaseKey, read back in an environment
defining both variables, come back with BOTH credentials replaced by the
environment values while the store name is untouched. -/
theorem store_roundtrip_witness :
    dsGetProducts (dsSaveProducts [] initialProducts) = initialProducts
    ∧ dsGetSettings { url := none, key := none }
        (dsSaveSettings []
          (initialSettings { url := some "https://db.example", key := some "anon" }))
      = initialSettings { url := some "https://db.example", key := some "anon" }
    ∧ (dsGetSettings { url := some "https://env.example", key := some "ENVKEY" }
        (dsSaveSettings []
          { storeName := "S", address := "", whatsapp := "", email := "",
            description := "", logoUrl := "", supabaseUrl := some "",
            supabaseKey := some "K", tripayApiKey := none,
            tripayPrivateKey := none, tripayMerchantCode := none })).supabaseUrl
      = some "https://env.example"
    ∧ (dsGetSettings { url := some "https://env.example", key := some "ENVKEY" }
        (dsSaveSettings []
          { storeName := "S", address := "", whatsapp := "", email := "",
            description := "", logoUrl := "", supabaseUrl := some "",
            supabaseKey := some "K", tripayApiKey := none,
            tripayPrivateKey := none, tripayMerchantCode := none })).supabaseKey
      = some "ENVKEY"
    ∧ (dsGetSettings { url := some "https://env.example", key := some "ENVKEY" }
        (dsSaveSettings []
          { storeName := "S", address := "", whatsapp := "", email := "",
            description := "", logoUrl := "", supabaseUrl := some "",
            supabaseKey := some "K", tripayApiKey := none,
            tripayPrivateKey := none, tripayMerchantCode := none })).storeName
      = "S" := by
  have h := store_roundtrip { url := none, key := none } [] initialProducts
    initialVouchers initialAffiliates initialPayments
    (initialSettings { url := some "https://db.example", key := some "anon" })
  have h2 := store_roundtrip
    { url := some "https://env.example", key := some "ENVKEY" } [] initialProducts
    initialVouchers initialAffiliates initialPayments
    { storeName := "S", address := "", whatsapp := "", email := "",
      description := "", logoUrl := "", supabaseUrl := some "",
      supabaseKey := some "K", tripayApiKey := none,
      tripayPrivateKey := none, tripayMerchantCode := none }
  have hover := h2.2.2.2.2.2 (Or.inl (by decide))
  exact ⟨h.1, h.2.2.2.2.1 (Or.inl (by decide)), hover.1, hover.2.1, hover.2.2.1⟩
